import Mathlib

/-!
Verification development for the A2G protocol SDKs (TypeScript).

This file gives a shallow embedding of the code under verification:

* the HMAC-SHA256 signer of the identity SDK
  (typescript/did-sdk/src/signer.ts and its compiled form
  typescript/did-sdk/dist/src/signer.js),
* DID creation (typescript/did-sdk/src/did.ts),
* the A2G client: request correlation, disconnect, reconnect backoff and
  intent construction (typescript/a2g-sdk/src/client.ts and its compiled
  form in the unnamed compiled client source).

Machine integers are modelled as Nat with explicit reduction modulo 2^32
where the JavaScript code relies on 32-bit semantics (SHA-256 internals).
JavaScript strings are modelled as Lean strings; byte-level operations
assume ASCII data, which covers every string the signer is applied to in
the repository (hex keys, decimal timestamps, UUID nonces, JSON text).
-/

/-! ## SHA-256 and HMAC-SHA256

Executable model of the node `crypto` primitives used by the signer
(`createHmac("sha256", key).update(payload).digest("hex")`).  Words are
Nat values kept below 2^32 by explicit `% M32`.
-/

namespace Sha256

def M32 : Nat := 4294967296

def rotr (x n : Nat) : Nat := (x >>> n) ||| ((x <<< (32 - n)) % M32)

def bsig0 (x : Nat) : Nat := (rotr x 2) ^^^ (rotr x 13) ^^^ (rotr x 22)
def bsig1 (x : Nat) : Nat := (rotr x 6) ^^^ (rotr x 11) ^^^ (rotr x 25)
def ssig0 (x : Nat) : Nat := (rotr x 7) ^^^ (rotr x 18) ^^^ (x >>> 3)
def ssig1 (x : Nat) : Nat := (rotr x 17) ^^^ (rotr x 19) ^^^ (x >>> 10)

def ch (x y z : Nat) : Nat := (x &&& y) ^^^ ((x ^^^ 4294967295) &&& z)
def maj (x y z : Nat) : Nat := (x &&& y) ^^^ (x &&& z) ^^^ (y &&& z)

def K : List Nat :=
  [1116352408, 1899447441, 3049323471, 3921009573, 961987163, 1508970993,
   2453635748, 2870763221, 3624381080, 310598401, 607225278, 1426881987,
   1925078388, 2162078206, 2614888103, 3248222580, 3835390401, 4022224774,
   264347078, 604807628, 770255983, 1249150122, 1555081692, 1996064986,
   2554220882, 2821834349, 2952996808, 3210313671, 3336571891, 3584528711,
   113926993, 338241895, 666307205, 773529912, 1294757372, 1396182291,
   1695183700, 1986661051, 2177026350, 2456956037, 2730485921, 2820302411,
   3259730800, 3345764771, 3516065817, 3600352804, 4094571909, 275423344,
   430227734, 506948616, 659060556, 883997877, 958139571, 1322822218,
   1537002063, 1747873779, 1955562222, 2024104815, 2227730452, 2361852424,
   2428436474, 2756734187, 3204031479, 3329325298]

def iv : List Nat :=
  [1779033703, 3144134277, 1013904242, 2773480762, 1359893119, 2600822924,
   528734635, 1541459225]

/-- Big-endian bytes of a value, fixed width. -/
def beBytes (width : Nat) (value : Nat) : List Nat :=
  match width with
  | 0 => []
  | w + 1 => (value >>> (8 * w)) % 256 :: beBytes w value

/-- SHA-256 padding: append 0x80, zeros to 56 mod 64, then the 64-bit
big-endian bit length. -/
def pad (msg : List Nat) : List Nat :=
  let l := msg.length
  let k := (119 - (l % 64)) % 64
  msg ++ [0x80] ++ List.replicate k 0 ++ beBytes 8 (l * 8)

/-- Group bytes into 32-bit big-endian words. -/
def toWords : List Nat → List Nat
  | b0 :: b1 :: b2 :: b3 :: rest =>
    (((b0 * 256 + b1) * 256 + b2) * 256 + b3) :: toWords rest
  | _ => []

/-- Fold a compression function over successive 16-word blocks
(structural recursion so that concrete hashes reduce in the kernel). -/
def compressBlocks (compressFn : List Nat → List Nat → List Nat) (st : List Nat) :
    List Nat → List Nat
  | w0 :: w1 :: w2 :: w3 :: w4 :: w5 :: w6 :: w7 ::
    w8 :: w9 :: w10 :: w11 :: w12 :: w13 :: w14 :: w15 :: rest =>
    compressBlocks compressFn
      (compressFn st [w0, w1, w2, w3, w4, w5, w6, w7, w8, w9, w10, w11, w12, w13, w14, w15]) rest
  | _ => st

/-- Message-schedule extension; the accumulator holds the words produced
so far, most recent first. -/
def schedAux : Nat → List Nat → List Nat
  | 0, acc => acc.reverse
  | n + 1, acc =>
    let w := (ssig1 (acc.getD 1 0) + acc.getD 6 0 + ssig0 (acc.getD 14 0) + acc.getD 15 0) % M32
    schedAux n (w :: acc)

def schedule (block : List Nat) : List Nat := schedAux 48 block.reverse

def round (st : List Nat) (kw : Nat × Nat) : List Nat :=
  match st with
  | [a, b, c, d, e, f, g, h] =>
    let t1 := (h + bsig1 e + ch e f g + kw.1 + kw.2) % M32
    let t2 := (bsig0 a + maj a b c) % M32
    [(t1 + t2) % M32, a, b, c, (d + t1) % M32, e, f, g]
  | other => other

def compress (st block : List Nat) : List Nat :=
  let fin := (List.zip K (schedule block)).foldl round st
  List.zipWith (fun x y => (x + y) % M32) st fin

def sha256Words (msg : List Nat) : List Nat :=
  compressBlocks compress iv (toWords (pad msg))

/-- SHA-256 digest as a list of 32 bytes. -/
def sha256 (msg : List Nat) : List Nat :=
  (sha256Words msg).foldr (fun w acc => beBytes 4 w ++ acc) []

def hexDigit (n : Nat) : Char := if n < 10 then Char.ofNat (48 + n) else Char.ofNat (87 + n)

def byteHex (b : Nat) : String :=
  String.singleton (hexDigit (b / 16)) ++ String.singleton (hexDigit (b % 16))

def bytesToHex (bs : List Nat) : String := String.join (bs.map byteHex)

/-- HMAC-SHA256 (RFC 2104) with the 64-byte SHA-256 block size, as
implemented by node `createHmac`. -/
def hmacSha256 (key msg : List Nat) : List Nat :=
  let k0 := if key.length > 64 then sha256 key else key
  let kp := k0 ++ List.replicate (64 - k0.length) 0
  let ipad := kp.map (fun b => b ^^^ 0x36)
  let opad := kp.map (fun b => b ^^^ 0x5c)
  sha256 (opad ++ sha256 (ipad ++ msg))

/-- ASCII bytes of a string (all strings fed to the signer in this
repository are ASCII). -/
def strBytes (s : String) : List Nat := s.data.map Char.toNat

/-- Hex-encoded HMAC-SHA256 of a string message under a string key:
the model of `createHmac("sha256", key).update(msg).digest("hex")`. -/
def hmacHex (key msg : String) : String := bytesToHex (hmacSha256 (strBytes key) (strBytes msg))

end Sha256

/-! ## JSON values and `JSON.stringify`

Model of the JavaScript values the SDKs serialize.  Objects are
association lists in property-insertion order; `num` is restricted to
integers, which covers every numeric payload appearing in the
repository.
-/

inductive Json where
  | null : Json
  | bool (b : Bool) : Json
  | num (n : Int) : Json
  | str (s : String) : Json
  | arr (items : List Json) : Json
  | obj (fields : List (String × Json)) : Json

namespace Json

/-- JSON string escaping as performed by `JSON.stringify`. -/
def escapeChar (c : Char) : String :=
  if c = '"' then "\\\""
  else if c = '\\' then "\\\\"
  else if c = Char.ofNat 8 then "\\b"
  else if c = Char.ofNat 9 then "\\t"
  else if c = Char.ofNat 10 then "\\n"
  else if c = Char.ofNat 12 then "\\f"
  else if c = Char.ofNat 13 then "\\r"
  else if c.toNat < 32 then
    "\\u00" ++ String.singleton (Sha256.hexDigit (c.toNat / 16))
            ++ String.singleton (Sha256.hexDigit (c.toNat % 16))
  else String.singleton c

def quoteStr (s : String) : String :=
  "\"" ++ String.join (s.data.map escapeChar) ++ "\""

mutual

/-- `JSON.stringify(v)` with no replacer: objects serialize their
properties in insertion order. -/
def stringify : Json → String
  | .null => "null"
  | .bool true => "true"
  | .bool false => "false"
  | .num n => toString n
  | .str s => quoteStr s
  | .arr items => "[" ++ stringifyArr items ++ "]"
  | .obj fields => "\x7b" ++ stringifyObj fields ++ "\x7d"

def stringifyArr : List Json → String
  | [] => ""
  | [x] => stringify x
  | x :: y :: xs => stringify x ++ "," ++ stringifyArr (y :: xs)

def stringifyObj : List (String × Json) → String
  | [] => ""
  | [(k, v)] => quoteStr k ++ ":" ++ stringify v
  | (k, v) :: y :: xs => quoteStr k ++ ":" ++ stringify v ++ "," ++ stringifyObj (y :: xs)

end

/-- First-match association-list lookup, the model of `record[key]` /
`Map.get` on string keys. -/
def lookupField {β : Type} (fields : List (String × β)) (k : String) : Option β :=
  match fields with
  | [] => none
  | (k1, v) :: rest => if k1 = k then some v else lookupField rest k

/-- Lexicographic comparison of character lists by code point, the
model of JavaScript string comparison (identical to UTF-16 order on the
ASCII keys this code sorts). -/
def charListLe : List Char → List Char → Bool
  | [], _ => true
  | _ :: _, [] => false
  | a :: as, b :: bs =>
    if a.toNat < b.toNat then true
    else if b.toNat < a.toNat then false
    else charListLe as bs

def strLe (a b : String) : Prop := charListLe a.data b.data = true

instance : DecidableRel strLe := fun a b => instDecidableEqBool (charListLe a.data b.data) true

/-- The model of `Object.keys(obj).sort()`: JavaScript default sort is
lexicographic on the string keys; on duplicate-free key lists any
correct sort yields the same sorted list, modelled with insertion sort
so that concrete values reduce in the kernel. -/
def sortStrings (l : List String) : List String :=
  List.insertionSort strLe l

end Json

/-! ## The identity signer

Embedding of `typescript/did-sdk/src/signer.ts` (class `Signer`).  The
compiled distribution `typescript/did-sdk/dist/src/signer.js` ships a
different canonicalization (`Signer.sortKeys`); both are embedded, with
the hand-written TypeScript as the primary definition.

`Signer.sign` takes its timestamp and nonce explicitly: in the source
they come from `options` when supplied, and from `Date.now()` /
`uuidv4()` otherwise; claims are stated over all timestamp/nonce
strings, which covers both cases.
-/

namespace Signer

/-- The `string | object` message type of `Signer.sign`/`Signer.verify`.
Structured payloads are object literals (association lists of fields). -/
inductive Message where
  | str (s : String) : Message
  | obj (fields : List (String × Json)) : Message

/-- Signature triple returned by `Signer.sign`. -/
structure Signature where
  timestamp : String
  nonce : String
  hash : String

mutual

/-- `JSON.stringify(value, propertyList)` with an array replacer, the
semantics of `JSON.stringify(obj, Object.keys(obj).sort())` in
`signer.ts`: at EVERY nesting level an object serializes exactly the
keys of `propertyList` (in list order) that it possesses; arrays ignore
the replacer and keep all elements in order. -/
def serializeFiltered (propertyList : List String) : Json → String
  | .null => "null"
  | .bool true => "true"
  | .bool false => "false"
  | .num n => toString n
  | .str s => Json.quoteStr s
  | .arr items => "[" ++ serializeFilteredArr propertyList items ++ "]"
  | .obj fields =>
    let serialized := serializeFilteredObj propertyList fields
    "\x7b" ++ String.intercalate ","
      (propertyList.filterMap (fun k =>
        (Json.lookupField serialized k).map (fun s => Json.quoteStr k ++ ":" ++ s))) ++ "\x7d"

def serializeFilteredArr (propertyList : List String) : List Json → String
  | [] => ""
  | [x] => serializeFiltered propertyList x
  | x :: y :: xs =>
    serializeFiltered propertyList x ++ "," ++ serializeFilteredArr propertyList (y :: xs)

def serializeFilteredObj (propertyList : List String) :
    List (String × Json) → List (String × String)
  | [] => []
  | (k, v) :: rest => (k, serializeFiltered propertyList v) :: serializeFilteredObj propertyList rest

end

/-- `Signer.stableStringify` from `typescript/did-sdk/src/signer.ts`:
`JSON.stringify(obj, Object.keys(obj).sort())`. -/
def stableStringify (fields : List (String × Json)) : String :=
  serializeFiltered (Json.sortStrings (fields.map Prod.fst)) (.obj fields)

mutual

/-- `Signer.sortKeys` from the compiled
`typescript/did-sdk/dist/src/signer.js`: recursively rebuilds every
object with its keys sorted, mapping arrays elementwise and leaving
primitives unchanged. -/
def sortKeys : Json → Json
  | .arr items => .arr (sortKeysArr items)
  | .obj fields =>
    let next := sortKeysObj fields
    .obj ((Json.sortStrings (fields.map Prod.fst)).filterMap
      (fun k => (Json.lookupField next k).map (fun v => (k, v))))
  | v => v

def sortKeysArr : List Json → List Json
  | [] => []
  | x :: xs => sortKeys x :: sortKeysArr xs

def sortKeysObj : List (String × Json) → List (String × Json)
  | [] => []
  | (k, v) :: rest => (k, sortKeys v) :: sortKeysObj rest

end

/-- `Signer.stableStringify` from the compiled
`typescript/did-sdk/dist/src/signer.js`: `JSON.stringify(sortKeys value)`. -/
def stableStringifyDist (fields : List (String × Json)) : String :=
  Json.stringify (sortKeys (.obj fields))

/-- `Signer.sign`: normalize the message (objects via
`stableStringify`), build the payload `timestamp:nonce:message` and
HMAC-SHA256 it under the signing key. -/
def sign (signingKey : String) (message : Message) (timestamp nonce : String) : Signature :=
  let messageStr := match message with
    | .obj fields => stableStringify fields
    | .str s => s
  let payload := timestamp ++ ":" ++ nonce ++ ":" ++ messageStr
  { timestamp := timestamp, nonce := nonce, hash := Sha256.hmacHex signingKey payload }

/-- `Signer.constantTimeEqual`: length check, then OR-accumulated XOR of
the code units. -/
def constantTimeEqual (a b : String) : Bool :=
  if a.length ≠ b.length then false
  else ((a.data.zip b.data).foldl (fun r p => r ||| (p.1.toNat ^^^ p.2.toNat)) 0) == 0

/-- JavaScript `parseInt(s, 10)`: optional sign, then the longest
decimal-digit prefix; `none` models `NaN`. -/
def parseIntJS (s : String) : Option Int :=
  let digitsVal : List Char → Nat := fun cs => cs.foldl (fun a c => a * 10 + (c.toNat - 48)) 0
  match s.data with
  | '-' :: rest =>
    let ds := rest.takeWhile Char.isDigit
    if ds.isEmpty then none else some (-(digitsVal ds : Int))
  | '+' :: rest =>
    let ds := rest.takeWhile Char.isDigit
    if ds.isEmpty then none else some (digitsVal ds : Int)
  | cs =>
    let ds := cs.takeWhile Char.isDigit
    if ds.isEmpty then none else some (digitsVal ds : Int)

/-- `Signer.verify`: reject a signature older than `maxAgeMs`
(`now - parseInt(timestamp) > maxAgeMs`; a `NaN` timestamp makes the
comparison false, as in JavaScript), otherwise recompute the signature
with the supplied timestamp and nonce and compare hashes in constant
time.  `now` models `Date.now()`. -/
def verify (signingKey : String) (sig : Signature) (message : Message)
    (now maxAgeMs : Int) : Bool :=
  let expired : Bool := match parseIntJS sig.timestamp with
    | some signedAt => decide (now - signedAt > maxAgeMs)
    | none => false
  if expired then false
  else constantTimeEqual sig.hash (sign signingKey message sig.timestamp sig.nonce).hash

/-- Default `maxAgeMs` of `Signer.verify` (5 minutes). -/
def defaultMaxAgeMs : Int := 300000

end Signer

/-! ## DID creation

Embedding of `AeonDID.create` from `typescript/did-sdk/src/did.ts`.  The
signing key is passed explicitly (in the source it is
`options?.signingKey || Signer.generateKey()`); the time-dependent
`createdAt` field and the optional metadata are claim-irrelevant and
omitted from the document model.
-/

namespace AeonDID

/-- Lowercase-alphanumeric character class `[a-z0-9]`. -/
def isLowerAlnum (c : Char) : Bool :=
  (97 ≤ c.toNat && c.toNat ≤ 122) || (48 ≤ c.toNat && c.toNat ≤ 57)

/-- Character class `[a-z0-9-]`. -/
def isNameChar (c : Char) : Bool := isLowerAlnum c || c = '-'

/-- Matcher for the regex tail `[a-z0-9-]*[a-z0-9]$`. -/
def nameTail : List Char → Bool
  | [] => false
  | [c] => isLowerAlnum c
  | c :: d :: rest => isNameChar c && nameTail (d :: rest)

/-- The name validation regex of `AeonDID.create`:
`/^[a-z0-9][a-z0-9-]*[a-z0-9]$|^[a-z0-9]$/`. -/
def nameRegexTest (s : String) : Bool :=
  match s.data with
  | [] => false
  | [c] => isLowerAlnum c
  | c :: d :: rest => isLowerAlnum c && nameTail (d :: rest)

/-- The fields of the DID document relevant to the claims. -/
structure AeonDIDDocument where
  did : String
  name : String
  signingKey : String

/-- `AeonDID.create`: reject an empty name (`!name`) or one failing the
regex, otherwise build the document with DID string `did:aeon:<name>`. -/
def create (name : String) (signingKey : String) : Except String AeonDIDDocument :=
  if name = "" || !nameRegexTest name then
    .error "Invalid DID name. Use lowercase letters, numbers, and hyphens. Must start and end with alphanumeric."
  else
    .ok { did := "did:aeon:" ++ name, name := name, signingKey := signingKey }

/-- The validity condition as the spec words it: nonempty, only
lowercase alphanumerics and hyphens, and not starting or ending with a
hyphen. -/
def specNameValid (s : String) : Bool :=
  !s.data.isEmpty && s.data.all isNameChar
    && !(s.data.head? == some '-') && !(s.data.getLast? == some '-')

end AeonDID

/-! ## The A2G client

Embedding of `typescript/a2g-sdk/src/client.ts` (class `A2gClient`).
The event handlers and methods are modelled as pure transition functions
from a client state to a new state plus a list of observable effects
(timer cancellations, promise settlements, socket closures, reconnect
scheduling), in the order the source performs them.
-/

namespace A2gClient

def DEFAULT_TIMEOUT_MS : Nat := 5000
def MAX_RECONNECT_ATTEMPTS : Nat := 5
def BASE_RECONNECT_DELAY_MS : Nat := 1000

/-- `A2gClientConfig` from `typescript/a2g-sdk/dist/types.d.ts`;
`none` models an absent (`undefined`) option. -/
structure A2gClientConfig where
  apiKey : Option String
  signingKey : Option String
  connectionTimeoutMs : Option Nat
  requestTimeoutMs : Option Nat
  autoReconnect : Option Bool

/-- One entry of the `pendingRequests` map: the deadline timer handle
(`NodeJS.Timeout`, modelled as a numeric id).  The resolve/reject
callbacks are represented by effects keyed on the request id. -/
structure PendingEntry where
  timerId : Nat

/-- A parsed inbound response (`G2aVerdict`): its correlation id plus
the rest of the parsed JSON, which the client forwards unexamined. -/
structure G2aVerdict where
  id : String
  body : Json

/-- Observable effects of the client transition functions. -/
inductive Effect where
  | clearTimeoutEff (timerId : Nat)
  | resolveEff (requestId : String) (response : G2aVerdict)
  | rejectEff (requestId : String) (errorMessage : String)
  | wsCloseEff (code : Nat)
  | scheduleReconnectEff

/-- The client state the claims are about: the pending-request table,
the reconnect bookkeeping and whether a socket object is present. -/
structure ClientState where
  pendingRequests : List (String × PendingEntry)
  reconnectAttempt : Nat
  isReconnecting : Bool
  wsPresent : Bool

/-- `Map.delete` on string keys. -/
def removeKey {β : Type} (l : List (String × β)) (k : String) : List (String × β) :=
  l.filter (fun p => !(p.1 == k))

/-- The `ws.on("message")` handler: parse (a parse failure is logged
and ignored), look up the pending entry by the response id; if present,
clear its deadline timer, resolve it with the parsed response and
delete the entry; otherwise do nothing. -/
def handleMessage (st : ClientState) (parsed : Option G2aVerdict) :
    ClientState × List Effect :=
  match parsed with
  | none => (st, [])
  | some response =>
    match Json.lookupField st.pendingRequests response.id with
    | some pending =>
      ({ st with pendingRequests := removeKey st.pendingRequests response.id },
       [.clearTimeoutEff pending.timerId, .resolveEff response.id response])
    | none => (st, [])

/-- The `ws.on("close")` handler: drop the socket, reject every pending
request with "Connection closed" after clearing its timer, and enter
the reconnect path only when the close code is not 1000 and
`autoReconnect` is not `false`. -/
def handleClose (cfg : A2gClientConfig) (st : ClientState) (code : Nat) :
    ClientState × List Effect :=
  let rejections := (st.pendingRequests.map (fun p =>
    [Effect.clearTimeoutEff p.2.timerId, Effect.rejectEff p.1 "Connection closed"])).flatten
  let st1 : ClientState := { st with wsPresent := false, pendingRequests := [] }
  if code ≠ 1000 && !(cfg.autoReconnect == some false) then
    (st1, rejections ++ [Effect.scheduleReconnectEff])
  else
    (st1, rejections)

/-- `scheduleReconnect`: no-op once reconnecting or after
`MAX_RECONNECT_ATTEMPTS` attempts; otherwise increment the attempt
counter and schedule a retry after
`min(BASE_RECONNECT_DELAY_MS * 2^(attempt-1), 30000) + Math.random() * 1000`
milliseconds.  `rand` models the `Math.random()` draw, a value in
`[0, 1)`. -/
def scheduleReconnect (st : ClientState) (rand : ℚ) : ClientState × Option ℚ :=
  if st.isReconnecting || decide (st.reconnectAttempt ≥ MAX_RECONNECT_ATTEMPTS) then
    (st, none)
  else
    let attempt := st.reconnectAttempt + 1
    let delay : ℚ :=
      min ((BASE_RECONNECT_DELAY_MS : ℚ) * 2 ^ (attempt - 1)) 30000 + rand * 1000
    ({ st with isReconnecting := true, reconnectAttempt := attempt }, some delay)

/-- `disconnect()`: clear every pending timer, reject every pending
request with "Client disconnected", empty the table, and close the
socket (when one is present) with the normal-closure code 1000. -/
def disconnect (st : ClientState) : ClientState × List Effect :=
  let effs := (st.pendingRequests.map (fun p =>
    [Effect.clearTimeoutEff p.2.timerId, Effect.rejectEff p.1 "Client disconnected"])).flatten
  ({ st with pendingRequests := [] },
   effs ++ (if st.wsPresent then [Effect.wsCloseEff 1000] else []))

/-- JavaScript `a || b` on an optional numeric config value: `undefined`
and `0` are falsy and fall back to the default. -/
def jsOrNum (v : Option Nat) (dflt : Nat) : Nat :=
  match v with
  | some n => if n = 0 then dflt else n
  | none => dflt

/-- The deadline used by `requestIntent`:
`this.config.requestTimeoutMs || DEFAULT_TIMEOUT_MS`. -/
def requestTimeoutMsOf (cfg : A2gClientConfig) : Nat :=
  jsOrNum cfg.requestTimeoutMs DEFAULT_TIMEOUT_MS

/-- The connection timeout used by `connect`:
`this.config.connectionTimeoutMs || 10000`. -/
def connectionTimeoutMsOf (cfg : A2gClientConfig) : Nat :=
  jsOrNum cfg.connectionTimeoutMs 10000

/-- The wire message built by `requestIntent` (the constant
`jsonrpc: "2.0"` and `method: "a2g/intent"` tags are left implicit).
`context` is absent (`undefined`) until the signing step fills it. -/
structure A2gIntent where
  agent_did : String
  intent_id : String
  tool : String
  arguments : List (String × Json)
  context : Option (List (String × Json))
  id : String

/-- A `Signature` as it appears in `params.context.signature` once
serialized (property insertion order of the `Signature` literal). -/
def signatureToJson (s : Signer.Signature) : Json :=
  .obj [("timestamp", .str s.timestamp), ("nonce", .str s.nonce), ("hash", .str s.hash)]

/-- The intent construction and signing step of
`A2gClient.requestIntent` in `typescript/a2g-sdk/src/client.ts`: build
the params from the call, then, if a signing key is configured, sign
THE AGENT DID STRING (`Signer.sign(this.config.signingKey,
this.agentDid)` — the comment in the source says this aligns with the
engine verification) and attach the result as `params.context.signature`.
Timestamp and nonce of the signature are explicit, as in `Signer.sign`. -/
def buildIntent (agentDid tool : String) (args : List (String × Json))
    (intentId requestId : String) (signingKey : Option String)
    (ts nonce : String) : A2gIntent :=
  let base : A2gIntent :=
    { agent_did := agentDid, intent_id := intentId, tool := tool,
      arguments := args, context := none, id := requestId }
  match signingKey with
  | none => base
  | some key =>
    let sig := Signer.sign key (.str agentDid) ts nonce
    { base with context := some [("signature", signatureToJson sig)] }

/-- The params object of an intent as `JSON.stringify` would see it for
signing, per the spec and the compiled client (`paramsForSignature`):
`agent_did`, `intent_id`, `tool`, `arguments`, with the context carrying
no `signature` field — and since `requestIntent` never sets a context
before signing, no `context` key at all (an `undefined` property is
dropped by `JSON.stringify`). -/
def paramsForSignature (agentDid intentId tool : String)
    (args : List (String × Json)) : List (String × Json) :=
  [("agent_did", .str agentDid), ("intent_id", .str intentId),
   ("tool", .str tool), ("arguments", .obj args)]

/-- The hash of the signature attached in `params.context.signature`,
when one is present. -/
def contextSignatureHash (intent : A2gIntent) : Option String :=
  match intent.context with
  | none => none
  | some ctx =>
    match Json.lookupField ctx "signature" with
    | some (.obj sigFields) =>
      match Json.lookupField sigFields "hash" with
      | some (.str h) => some h
      | _ => none
    | _ => none

/-- Recognizer for promise-rejection effects, used to count how many
pending requests a transition fails. -/
def isRejectEff : Effect → Bool
  | .rejectEff _ _ => true
  | _ => false

end A2gClient

/-! ## Helper lemmas -/

theorem zipSelf_fold_or_xor (l : List Char) (acc : Nat) :
    ((l.zip l).foldl (fun r p => r ||| (p.1.toNat ^^^ p.2.toNat)) acc) = acc := by
  induction l generalizing acc with
  | nil => rfl
  | cons c rest ih =>
    rw [List.zip_cons_cons, List.foldl_cons]
    simpa [Nat.xor_self, Nat.or_zero] using ih acc

theorem constantTimeEqual_self (s : String) : Signer.constantTimeEqual s s = true := by
  unfold Signer.constantTimeEqual
  rw [if_neg (by simp)]
  simp [zipSelf_fold_or_xor]

theorem lookupField_removeKey {β : Type} (l : List (String × β)) (k : String) :
    Json.lookupField (A2gClient.removeKey l k) k = none := by
  induction l with
  | nil => rfl
  | cons p rest ih =>
    obtain ⟨k1, v⟩ := p
    by_cases h : k1 = k
    · simpa [A2gClient.removeKey, List.filter_cons, h] using ih
    · simpa [A2gClient.removeKey, List.filter_cons, Json.lookupField, h] using ih

theorem filter_reject_pairs (pend : List (String × A2gClient.PendingEntry)) (msg : String) :
    ((pend.map (fun p => [A2gClient.Effect.clearTimeoutEff p.2.timerId,
                          A2gClient.Effect.rejectEff p.1 msg])).flatten.filter
        A2gClient.isRejectEff) =
      pend.map (fun p => A2gClient.Effect.rejectEff p.1 msg) := by
  induction pend with
  | nil => rfl
  | cons p rest ih =>
    simp only [List.map_cons, List.flatten_cons, List.filter_append, ih]
    rfl

theorem reconnect_not_in_pairs (pend : List (String × A2gClient.PendingEntry)) (msg : String) :
    A2gClient.Effect.scheduleReconnectEff ∉
      (pend.map (fun p => [A2gClient.Effect.clearTimeoutEff p.2.timerId,
                           A2gClient.Effect.rejectEff p.1 msg])).flatten := by
  induction pend with
  | nil => simp
  | cons p rest ih =>
    simp only [List.map_cons, List.flatten_cons, List.mem_append, List.mem_cons]
    rintro (h | h)
    · rcases h with h | h | h <;> simp_all
    · exact ih h

/-! ## Claims about the signer -/

/-- C3: for every key k and every message m (string or structured),
verify(k, sign(k, m), m) returns true when evaluated while the elapsed
time since the signature timestamp does not exceed the default
max_age_ms of 300000. -/
theorem C3_sign_verify_roundtrip (key : String) (m : Signer.Message)
    (ts nonce : String) (now t : Int)
    (hts : Signer.parseIntJS ts = some t) (hage : now - t ≤ 300000) :
    Signer.verify key (Signer.sign key m ts nonce) m now 300000 = true := by
  have htstamp : (Signer.sign key m ts nonce).timestamp = ts := rfl
  unfold Signer.verify
  rw [htstamp, hts]
  simp only [decide_eq_false (by omega : ¬ now - t > 300000), if_false, Bool.false_eq_true]
  exact constantTimeEqual_self _

/-- C4: verify returns false whenever now − timestamp exceeds the
default 300000 ms window, whatever the hash; and the age check rejects
only OLDER signatures — a correctly signed message with a timestamp in
the future still verifies. -/
theorem C4_staleness_window (key : String) (m : Signer.Message)
    (ts nonce hashAny : String) (now1 now2 t : Int)
    (hts : Signer.parseIntJS ts = some t)
    (hstale : now1 - t > 300000) (hfuture : now2 < t) :
    Signer.verify key ⟨ts, nonce, hashAny⟩ m now1 300000 = false ∧
    Signer.verify key (Signer.sign key m ts nonce) m now2 300000 = true := by
  constructor
  · unfold Signer.verify
    simp only [hts]
    simp [decide_eq_true_eq, hstale]
  · have htstamp : (Signer.sign key m ts nonce).timestamp = ts := rfl
    unfold Signer.verify
    rw [htstamp, hts]
    simp only [decide_eq_false (by omega : ¬ now2 - t > 300000), if_false, Bool.false_eq_true]
    exact constantTimeEqual_self _

/-- C5: for string messages the hash field of Signer.sign is exactly the
hex HMAC-SHA256 of timestamp:nonce:message under the key; in particular
signing "hello" at timestamp "1000" with nonce "n1" hashes
"1000:n1:hello". -/
theorem C5_hash_payload_format (key msg ts nonce : String) :
    (Signer.sign key (.str msg) ts nonce).hash =
      Sha256.hmacHex key (ts ++ ":" ++ nonce ++ ":" ++ msg) ∧
    (Signer.sign key (.str "hello") "1000" "n1").hash =
      Sha256.hmacHex key "1000:n1:hello" :=
  ⟨rfl, rfl⟩

theorem C3_roundtrip_witness :
    Signer.parseIntJS "1000" = some 1000 ∧ (1000 : Int) - 1000 ≤ 300000 ∧
    Signer.verify "key" (Signer.sign "key" (.str "hello") "1000" "n1")
      (.str "hello") 1000 300000 = true :=
  ⟨rfl, by decide,
   C3_sign_verify_roundtrip "key" (.str "hello") "1000" "n1" 1000 1000 rfl (by decide)⟩

theorem C4_staleness_witness :
    Signer.parseIntJS "1000" = some 1000 ∧
    (400000 : Int) - 1000 > 300000 ∧ (500 : Int) < 1000 ∧
    (Signer.verify "key" ⟨"1000", "n1", "deadbeef"⟩ (.str "hello") 400000 300000 = false ∧
     Signer.verify "key" (Signer.sign "key" (.str "hello") "1000" "n1")
       (.str "hello") 500 300000 = true) :=
  ⟨rfl, by decide, by decide,
   C4_staleness_window "key" (.str "hello") "1000" "n1" "deadbeef" 400000 500 1000
     rfl (by decide) (by decide)⟩

/-! ## Claims about canonicalization -/

/-- C1: the hand-written `Signer.stableStringify`
(`JSON.stringify(obj, Object.keys(obj).sort())`) does NOT sort keys at
every nesting level: the sorted top-level key list acts as a
`JSON.stringify` replacer, so a nested key absent from the top level is
silently dropped.  On the payload (a := (b := 1)) it yields
"\x7b\"a\":\x7b\x7d\x7d", while the recursive `Signer.sortKeys`
canonicalization shipped in the compiled signer (and described by the
spec) yields "\x7b\"a\":\x7b\"b\":1\x7d\x7d"; consequently the
hand-written signer produces the SAME signature for the two different
payloads (a := (b := 1)) and (a := (c := 2)). -/
theorem C1_canonicalization_divergence :
    Signer.stableStringify [("a", Json.obj [("b", Json.num 1)])] = "\x7b\"a\":\x7b\x7d\x7d" ∧
    Signer.stableStringifyDist [("a", Json.obj [("b", Json.num 1)])] =
      "\x7b\"a\":\x7b\"b\":1\x7d\x7d" ∧
    Signer.stableStringify [("a", Json.obj [("b", Json.num 1)])] ≠
      Signer.stableStringifyDist [("a", Json.obj [("b", Json.num 1)])] ∧
    Signer.sign "key" (.obj [("a", Json.obj [("b", Json.num 1)])]) "1000" "n1" =
      Signer.sign "key" (.obj [("a", Json.obj [("c", Json.num 2)])]) "1000" "n1" :=
  ⟨rfl, rfl, by decide, rfl⟩

/-! ## Claims about intent construction -/

/-- C2 (amended): when a signing key is configured, `requestIntent` in
`typescript/a2g-sdk/src/client.ts` computes the attached signature over
the AGENT DID STRING — not over the intent parameter object — and places
it into the message params context as the `signature` sub-object. -/
theorem C2_requestIntent_signs_agent_did (agentDid tool : String)
    (args : List (String × Json)) (intentId requestId key ts nonce : String) :
    (A2gClient.buildIntent agentDid tool args intentId requestId (some key) ts nonce).context =
      some [("signature",
        A2gClient.signatureToJson (Signer.sign key (.str agentDid) ts nonce))] :=
  rfl

set_option maxRecDepth 20000 in
/-- C2 (counterexample to the claim as stated): for a concrete call the
signature attached by `requestIntent` differs from a signature computed
over the intent parameter object with any previously-attached
`context.signature` removed. -/
theorem C2_counterexample_not_params_object :
    A2gClient.contextSignatureHash
        (A2gClient.buildIntent "did:aeon:alpha" "read_file" [] "i1" "r1"
          (some "key") "1000" "n1") ≠
      some (Signer.sign "key"
        (.obj (A2gClient.paramsForSignature "did:aeon:alpha" "i1" "read_file" []))
        "1000" "n1").hash := by
  decide

/-! ## Claims about the request correlator and connection lifecycle -/

/-- C6: when an inbound message matches a pending entry, the handler
cancels the deadline timer, resolves the entry with the parsed response
and removes it from the table; a second message with the same id finds
no entry and is ignored (no further effects, no state change — the
handler is a total function, so nothing is thrown). -/
theorem C6_settled_exactly_once (st : A2gClient.ClientState) (v : A2gClient.G2aVerdict)
    (e : A2gClient.PendingEntry)
    (hpend : Json.lookupField st.pendingRequests v.id = some e) :
    (A2gClient.handleMessage st (some v)).2 =
      [.clearTimeoutEff e.timerId, .resolveEff v.id v] ∧
    Json.lookupField (A2gClient.handleMessage st (some v)).1.pendingRequests v.id = none ∧
    A2gClient.handleMessage (A2gClient.handleMessage st (some v)).1 (some v) =
      ((A2gClient.handleMessage st (some v)).1, []) := by
  have h1 : A2gClient.handleMessage st (some v) =
      ({ st with pendingRequests := A2gClient.removeKey st.pendingRequests v.id },
       [.clearTimeoutEff e.timerId, .resolveEff v.id v]) := by
    simp only [A2gClient.handleMessage, hpend]
  refine ⟨by rw [h1], ?_, ?_⟩
  · rw [h1]
    exact lookupField_removeKey st.pendingRequests v.id
  · rw [h1]
    simp only [A2gClient.handleMessage, lookupField_removeKey]

theorem C6_settled_witness :
    Json.lookupField (A2gClient.ClientState.mk [("r1", ⟨7⟩)] 0 false true).pendingRequests
      "r1" = some ⟨7⟩ ∧
    ((A2gClient.handleMessage (A2gClient.ClientState.mk [("r1", ⟨7⟩)] 0 false true)
        (some ⟨"r1", Json.null⟩)).2 =
      [.clearTimeoutEff 7, .resolveEff "r1" ⟨"r1", Json.null⟩] ∧
     Json.lookupField (A2gClient.handleMessage (A2gClient.ClientState.mk [("r1", ⟨7⟩)] 0 false true)
        (some ⟨"r1", Json.null⟩)).1.pendingRequests "r1" = none ∧
     A2gClient.handleMessage
       (A2gClient.handleMessage (A2gClient.ClientState.mk [("r1", ⟨7⟩)] 0 false true)
         (some ⟨"r1", Json.null⟩)).1 (some ⟨"r1", Json.null⟩) =
       ((A2gClient.handleMessage (A2gClient.ClientState.mk [("r1", ⟨7⟩)] 0 false true)
         (some ⟨"r1", Json.null⟩)).1, [])) :=
  ⟨rfl, C6_settled_exactly_once (A2gClient.ClientState.mk [("r1", ⟨7⟩)] 0 false true)
    ⟨"r1", Json.null⟩ ⟨7⟩ rfl⟩

/-- C7: disconnect() with N pending requests clears each deadline timer
and rejects each request with the "Client disconnected" error (an error
identity distinct from the "Connection closed" one used by the close
handler), leaves the pending table empty, closes the socket with the
normal-closure code 1000 — and the close handler never schedules a
reconnect for close code 1000. -/
theorem C7_disconnect_cascade (pend : List (String × A2gClient.PendingEntry))
    (ra : Nat) (ir : Bool) (cfg : A2gClient.A2gClientConfig) (st2 : A2gClient.ClientState) :
    (A2gClient.disconnect ⟨pend, ra, ir, true⟩).1.pendingRequests = [] ∧
    (A2gClient.disconnect ⟨pend, ra, ir, true⟩).2 =
      (pend.map (fun p => [A2gClient.Effect.clearTimeoutEff p.2.timerId,
                           A2gClient.Effect.rejectEff p.1 "Client disconnected"])).flatten
        ++ [A2gClient.Effect.wsCloseEff 1000] ∧
    ((A2gClient.disconnect ⟨pend, ra, ir, true⟩).2.filter A2gClient.isRejectEff) =
      pend.map (fun p => A2gClient.Effect.rejectEff p.1 "Client disconnected") ∧
    ((A2gClient.disconnect ⟨pend, ra, ir, true⟩).2.filter A2gClient.isRejectEff).length =
      pend.length ∧
    "Client disconnected" ≠ "Connection closed" ∧
    A2gClient.Effect.scheduleReconnectEff ∉ (A2gClient.handleClose cfg st2 1000).2 := by
  have hfil : ((A2gClient.disconnect ⟨pend, ra, ir, true⟩).2.filter A2gClient.isRejectEff) =
      pend.map (fun p => A2gClient.Effect.rejectEff p.1 "Client disconnected") := by
    show (((pend.map _).flatten ++ [A2gClient.Effect.wsCloseEff 1000]).filter _) = _
    rw [List.filter_append, filter_reject_pairs]
    simp [A2gClient.isRejectEff]
  refine ⟨rfl, rfl, hfil, by rw [hfil, List.length_map], by decide, ?_⟩
  have hclose : A2gClient.handleClose cfg st2 1000 =
      ({ st2 with wsPresent := false, pendingRequests := [] },
       (st2.pendingRequests.map (fun p =>
         [A2gClient.Effect.clearTimeoutEff p.2.timerId,
          A2gClient.Effect.rejectEff p.1 "Connection closed"])).flatten) := by
    unfold A2gClient.handleClose
    simp
  rw [hclose]
  exact reconnect_not_in_pairs st2.pendingRequests "Connection closed"

/-- C8: for a reconnect triggered in attempt slot N = reconnectAttempt+1
(N starting at 1), the scheduled delay is
min(1000 * 2^(N-1), 30000) + rand * 1000 with rand ∈ [0,1), hence lies
in [min(1000 * 2^(N-1), 30000), min(1000 * 2^(N-1), 30000) + 1000]; and
once the attempt counter has reached MAX_RECONNECT_ATTEMPTS = 5 no
further reconnect is scheduled. -/
theorem C8_reconnect_backoff (pend : List (String × A2gClient.PendingEntry))
    (ra : Nat) (ir ws : Bool) (r : ℚ) (h0 : 0 ≤ r) (h1 : r < 1) :
    (ra < A2gClient.MAX_RECONNECT_ATTEMPTS →
      (A2gClient.scheduleReconnect ⟨pend, ra, false, ws⟩ r).2 =
        some (min ((A2gClient.BASE_RECONNECT_DELAY_MS : ℚ) * 2 ^ ra) 30000 + r * 1000) ∧
      (A2gClient.scheduleReconnect ⟨pend, ra, false, ws⟩ r).1.reconnectAttempt = ra + 1 ∧
      min ((A2gClient.BASE_RECONNECT_DELAY_MS : ℚ) * 2 ^ ra) 30000 ≤
        min ((A2gClient.BASE_RECONNECT_DELAY_MS : ℚ) * 2 ^ ra) 30000 + r * 1000 ∧
      min ((A2gClient.BASE_RECONNECT_DELAY_MS : ℚ) * 2 ^ ra) 30000 + r * 1000 ≤
        min ((A2gClient.BASE_RECONNECT_DELAY_MS : ℚ) * 2 ^ ra) 30000 + 1000) ∧
    (A2gClient.MAX_RECONNECT_ATTEMPTS ≤ ra →
      (A2gClient.scheduleReconnect ⟨pend, ra, ir, ws⟩ r).2 = none) := by
  constructor
  · intro hlt
    have hdec : decide (ra ≥ A2gClient.MAX_RECONNECT_ATTEMPTS) = false :=
      decide_eq_false (Nat.not_le.mpr hlt)
    have hval : A2gClient.scheduleReconnect ⟨pend, ra, false, ws⟩ r =
        (⟨pend, ra + 1, true, ws⟩,
         some (min ((A2gClient.BASE_RECONNECT_DELAY_MS : ℚ) * 2 ^ (ra + 1 - 1)) 30000
           + r * 1000)) := by
      unfold A2gClient.scheduleReconnect
      rw [hdec]
      simp
    have hr1000 : r * 1000 ≤ 1000 := by
      have := mul_le_mul_of_nonneg_right (le_of_lt h1) (by norm_num : (0:ℚ) ≤ 1000)
      simpa using this
    have hr0 : 0 ≤ r * 1000 := mul_nonneg h0 (by norm_num)
    refine ⟨?_, ?_, ?_, ?_⟩
    · rw [hval]; simp
    · rw [hval]
    · exact le_add_of_nonneg_right hr0
    · exact add_le_add_left hr1000 _
  · intro hge
    have hdec : decide (ra ≥ A2gClient.MAX_RECONNECT_ATTEMPTS) = true := decide_eq_true hge
    unfold A2gClient.scheduleReconnect
    rw [hdec]
    simp

theorem C8_backoff_witness :
    (0:ℚ) ≤ 0 ∧ (0:ℚ) < 1 ∧ 0 < A2gClient.MAX_RECONNECT_ATTEMPTS ∧
    ((A2gClient.scheduleReconnect ⟨[], 0, false, false⟩ 0).2 =
        some (min ((A2gClient.BASE_RECONNECT_DELAY_MS : ℚ) * 2 ^ 0) 30000 + 0 * 1000) ∧
     (A2gClient.scheduleReconnect ⟨[], 0, false, false⟩ 0).1.reconnectAttempt = 0 + 1 ∧
     min ((A2gClient.BASE_RECONNECT_DELAY_MS : ℚ) * 2 ^ 0) 30000 ≤
       min ((A2gClient.BASE_RECONNECT_DELAY_MS : ℚ) * 2 ^ 0) 30000 + 0 * 1000 ∧
     min ((A2gClient.BASE_RECONNECT_DELAY_MS : ℚ) * 2 ^ 0) 30000 + 0 * 1000 ≤
       min ((A2gClient.BASE_RECONNECT_DELAY_MS : ℚ) * 2 ^ 0) 30000 + 1000) :=
  ⟨le_refl 0, by norm_num, by decide,
   (C8_reconnect_backoff [] 0 false false 0 (le_refl 0) (by norm_num)).1 (by decide)⟩

/-! ## Claims about DID creation -/

theorem isLowerAlnum_eq_nameChar_not_hyphen (c : Char) :
    AeonDID.isLowerAlnum c = (AeonDID.isNameChar c && !(c == '-')) := by
  by_cases h : c = '-'
  · subst h; decide
  · simp [AeonDID.isNameChar, h]

theorem nameTail_eq_spec (l : List Char) :
    AeonDID.nameTail l =
      (l.all AeonDID.isNameChar && !(l.getLast? == some '-') && !l.isEmpty) := by
  induction l with
  | nil => rfl
  | cons c rest ih =>
    cases rest with
    | nil =>
      simp [AeonDID.nameTail, isLowerAlnum_eq_nameChar_not_hyphen c]
    | cons d rest2 =>
      rw [show AeonDID.nameTail (c :: d :: rest2)
            = (AeonDID.isNameChar c && AeonDID.nameTail (d :: rest2)) from rfl, ih]
      simp [List.getLast?_cons_cons, Bool.and_assoc]

theorem nameRegexTest_eq_spec (s : String) :
    AeonDID.nameRegexTest s = AeonDID.specNameValid s := by
  unfold AeonDID.nameRegexTest AeonDID.specNameValid
  cases hl : s.data with
  | nil => rfl
  | cons c rest =>
    cases rest with
    | nil =>
      simp [isLowerAlnum_eq_nameChar_not_hyphen c, Bool.and_assoc, Bool.and_comm]
    | cons d rest2 =>
      rw [show (match c :: d :: rest2 with
          | [] => false
          | [c] => AeonDID.isLowerAlnum c
          | c :: d :: rest => AeonDID.isLowerAlnum c && AeonDID.nameTail (d :: rest))
        = (AeonDID.isLowerAlnum c && AeonDID.nameTail (d :: rest2)) from rfl]
      rw [nameTail_eq_spec]
      simp only [isLowerAlnum_eq_nameChar_not_hyphen c, List.getLast?_cons_cons,
        List.all_cons, List.head?_cons, List.isEmpty_cons, Bool.not_false, Bool.and_true,
        Option.some.injEq, beq_iff_eq]
      cases hb : (c == '-') <;> cases hA : AeonDID.isNameChar c <;>
        simp_all [Bool.and_assoc, Bool.and_comm, Bool.and_left_comm, beq_eq_decide]

theorem create_isOk_eq_spec (name key : String) :
    (AeonDID.create name key).isOk = AeonDID.specNameValid name := by
  unfold AeonDID.create
  by_cases h : name = ""
  · subst h; rfl
  · rw [nameRegexTest_eq_spec]
    cases hv : AeonDID.specNameValid name <;> simp [h, hv, Except.isOk, Except.toBool]

/-- C9: AeonDID.create rejects a name exactly when it is empty, contains
a character outside lowercase alphanumerics and hyphens, or starts or
ends with a hyphen; in particular "My_Agent" is rejected while
"my-agent-2" is accepted and yields the DID string
"did:aeon:my-agent-2". -/
theorem C9_name_validation :
    (∀ name key : String,
      (AeonDID.create name key).isOk = true ↔ AeonDID.specNameValid name = true) ∧
    (AeonDID.create "My_Agent" "k").isOk = false ∧
    AeonDID.create "my-agent-2" "k" =
      .ok ⟨"did:aeon:my-agent-2", "my-agent-2", "k"⟩ :=
  ⟨fun name key => by rw [create_isOk_eq_spec], rfl, rfl⟩

/-! ## Claims about configured timeouts -/

/-- C10: a configured value of 0 for requestTimeoutMs or
connectionTimeoutMs is falsy under the JavaScript fallback pattern, so
requestIntent uses the 5000 ms default deadline and connect uses the
10000 ms default connection timeout. -/
theorem C10_zero_timeout_uses_default (cfg : A2gClient.A2gClientConfig) :
    (cfg.requestTimeoutMs = some 0 → A2gClient.requestTimeoutMsOf cfg = 5000) ∧
    (cfg.connectionTimeoutMs = some 0 → A2gClient.connectionTimeoutMsOf cfg = 10000) := by
  constructor <;> intro h <;>
    simp [A2gClient.requestTimeoutMsOf, A2gClient.connectionTimeoutMsOf, A2gClient.jsOrNum,
      h, A2gClient.DEFAULT_TIMEOUT_MS]

theorem C10_zero_timeout_witness :
    A2gClient.requestTimeoutMsOf ⟨none, none, some 0, some 0, none⟩ = 5000 ∧
    A2gClient.connectionTimeoutMsOf ⟨none, none, some 0, some 0, none⟩ = 10000 :=
  ⟨(C10_zero_timeout_uses_default ⟨none, none, some 0, some 0, none⟩).1 rfl,
   (C10_zero_timeout_uses_default ⟨none, none, some 0, some 0, none⟩).2 rfl⟩
